import Mathlib

/-
Shallow embedding of the AI dubbing studio backend (FastAPI + OpenAI wrapper).

Embedded source files:
  backend/utils/file_handlers.py      (validate_audio_file, cleanup_files)
  backend/services/audio_converter.py (convert_to_mp3, modelled as an outcome parameter)
  backend/services/openai_client.py   (OpenAIService methods, prompt constants,
                                       LANGUAGE_CODE_TO_NAME)
  backend/api/routes/v1/audio.py      (transcribe_audio route, dual-flow pipeline)
  mcp_servers/codex/client.py         (CodexClient.query retry loop)

The upstream OpenAI endpoints are modelled as oracle functions from the request
actually sent to an `Except`-valued outcome (error = exception raised by the SDK).
Python strings are modelled as Lean strings at the ASCII level: pyLower, pyTitle
and pyStrip mirror str.lower, str.title and str.strip for ASCII text, which covers
every string the embedded code applies them to.  Python truthiness of optional
strings (None and the empty string are falsy) is pyTruthy.  Exception classes of
backend.core.exceptions (message-carrying subclasses of a common base, one per
domain error kind) are modelled as the ErrKind tag plus a message.
-/

namespace DubbingStudio

set_option maxRecDepth 100000

/-! ### Python string semantics helpers -/

/-- Python truthiness of an optional string: None and the empty string are falsy. -/
def pyTruthy : Option String → Bool
  | none => false
  | some s => !(s == "")

/-- Python `x or default` on an optional string: the default replaces None and "". -/
def pyOrD : Option String → String → String
  | none, d => d
  | some s, d => if s == "" then d else s

/-- Python str.lower at the ASCII level. -/
def pyLower (s : String) : String := ⟨s.data.map Char.toLower⟩

/-- Helper for pyTitle: the flag records whether the previous character was a letter. -/
def pyTitleAux : Bool → List Char → List Char
  | _, [] => []
  | prevAlpha, c :: rest =>
    if c.isAlpha then
      (if prevAlpha then c.toLower else c.toUpper) :: pyTitleAux true rest
    else c :: pyTitleAux false rest

/-- Python str.title at the ASCII level: each letter that follows a non-letter is
uppercased, every other letter is lowercased. -/
def pyTitle (s : String) : String := ⟨pyTitleAux false s.data⟩

/-- The ASCII whitespace characters Python str.strip removes. -/
def pyIsSpace (c : Char) : Bool :=
  c == ' ' || c == '\t' || c == '\n' || c == '\r' || c == '\x0b' || c == '\x0c'

/-- Python str.strip at the ASCII level (leading and trailing whitespace removed). -/
def pyStrip (s : String) : String :=
  ⟨((s.data.dropWhile pyIsSpace).reverse.dropWhile pyIsSpace).reverse⟩

/-- Python dict.get(key, default) on a literal string-to-string dict kept as an
association list in source order. -/
def dictGet : List (String × String) → String → String → String
  | [], _, d => d
  | (k, v) :: rest, key, d => if key == k then v else dictGet rest key d

/-- Characters of the last path component (pathlib Path(...).name): trailing
slashes dropped, then everything after the last slash. -/
def pathNameChars (l : List Char) : List Char :=
  let trimmed := (l.reverse.dropWhile (fun c => c == '/')).reverse
  (trimmed.reverse.takeWhile (fun c => !(c == '/'))).reverse

/-- pathlib Path(...).suffix: the extension of the last component, empty when the
only dot is leading or trailing (suffix = name.take-from-last-dot when
0 < i < len(name) - 1 for i the index of the last dot). -/
def pathSuffix (s : String) : String :=
  let name := pathNameChars s.data
  let rev := name.reverse
  let pre := rev.takeWhile (fun c => !(c == '.'))
  if pre.length + 1 < rev.length ∧ 0 < pre.length then
    ⟨'.' :: pre.reverse⟩
  else ""

/-! ### Python str.format model

str.format is modelled in two stages: the template is parsed into literal and
replacement-field pieces, then the fields are rendered against a keyword
environment; an unknown field name renders to an error (Python KeyError), an
unterminated field or a stray closing brace parses to an error (Python
ValueError).  Format specs (text after a colon inside a field) are scanned but
not applied: in the embedded templates the only fields carrying a spec have
names that are not in the keyword environment, so rendering fails on the name
lookup before any spec could matter, exactly as in CPython. -/

inductive FmtPiece where
  | lit (s : String)
  | field (name : String)
deriving DecidableEq

/-- Parser state: outside a field, inside a field name (accumulated reversed), or
inside a format spec of a named field. -/
inductive FmtSt where
  | normal
  | name (acc : List Char)
  | spec (fieldName : String)

def parseFmtAux : List Char → FmtSt → List FmtPiece → Except String (List FmtPiece)
  | [], .normal, acc => .ok acc.reverse
  | [], .name _, _ => .error "ValueError: unterminated replacement field"
  | [], .spec _, _ => .error "ValueError: unterminated replacement field"
  | '{' :: '{' :: rest, .normal, acc => parseFmtAux rest .normal (.lit "\x7b" :: acc)
  | '}' :: '}' :: rest, .normal, acc => parseFmtAux rest .normal (.lit "\x7d" :: acc)
  | '{' :: rest, .normal, acc => parseFmtAux rest (.name []) acc
  | '}' :: _, .normal, _ => .error "ValueError: single closing brace in format string"
  | c :: rest, .normal, acc => parseFmtAux rest .normal (.lit ⟨[c]⟩ :: acc)
  | '}' :: rest, .name nacc, acc =>
    parseFmtAux rest .normal (.field ⟨nacc.reverse⟩ :: acc)
  | c :: rest, .name nacc, acc =>
    if c == ':' || c == '!' then parseFmtAux rest (.spec ⟨nacc.reverse⟩) acc
    else parseFmtAux rest (.name (c :: nacc)) acc
  | '}' :: rest, .spec n, acc => parseFmtAux rest .normal (.field n :: acc)
  | _ :: rest, .spec n, acc => parseFmtAux rest (.spec n) acc

/-- Association-list lookup used for format keyword arguments. -/
def lookupStr : List (String × String) → String → Option String
  | [], _ => none
  | (k, v) :: rest, key => if key == k then some v else lookupStr rest key

/-- Tail-recursive field rendering over the parsed pieces; the accumulator holds
the output characters in reverse. -/
def renderFmtAux (env : List (String × String)) :
    List FmtPiece → List Char → Except String String
  | [], acc => .ok ⟨acc.reverse⟩
  | .lit s :: rest, acc => renderFmtAux env rest (s.data.reverseAux acc)
  | .field n :: rest, acc =>
    match lookupStr env n with
    | some v => renderFmtAux env rest (v.data.reverseAux acc)
    | none => .error ("KeyError: " ++ n)

def renderFmt (env : List (String × String)) (ps : List FmtPiece) : Except String String :=
  renderFmtAux env ps []

/-- Python template.format(**env). -/
def pyFormat (tmpl : String) (env : List (String × String)) : Except String String :=
  (parseFmtAux tmpl.data .normal []).bind (renderFmt env)

/-! ### Constants from backend/services/openai_client.py and backend/core/config.py -/

/-- openai_client.TRANSLATION_SYSTEM_PROMPT (verbatim; \x27 and \x22 escape the
apostrophe and the double quote). -/
def TRANSLATION_SYSTEM_PROMPT : String :=
  "System: # Role and Objective\n" ++
  "You are an expert translator skilled in providing natural, fluent translations that retain the original meaning, tone, and cultural context.\n" ++
  "\n" ++
  "# Instructions\n" ++
  "Begin with a concise checklist (3-7 bullets) of your translation approach; keep items conceptual, not implementation-level.\n" ++
  "Translate the user\x27s text from {source_language} to {target_language}.\n" ++
  "\n" ++
  "## Output Requirements\n" ++
  "- Ensure the translation sounds native to speakers of {target_language}.\n" ++
  "- Preserve the original tone (formal/informal, emotional/neutral).\n" ++
  "- Adapt idioms and cultural references to {target_language} context while maintaining meaning.\n" ++
  "- Maintain the level of formality from the source text.\n" ++
  "- Keep technical terms, proper nouns, and brand names unchanged as appropriate.\n" ++
  "\n" ++
  "## Constraints\n" ++
  "- Provide ONLY the translated text without any commentary or explanation.\n" ++
  "- Do not add, remove, or alter information from the original text.\n" ++
  "- Avoid introductory phrases such as \x22Here is the translation:\x22 or similar.\n" ++
  "- Retain any untranslatable components (names, technical terms) exactly as in the original.\n" ++
  "\n" ++
  "After providing your translation, validate in 1-2 lines whether the output is native-sounding and preserves meaning and tone; self-correct if needed."

/-- openai_client.DEFAULT_TTS_INSTRUCTIONS (verbatim). -/
def DEFAULT_TTS_INSTRUCTIONS : String :=
  "Speak in a clear, natural, and professional tone.\n" ++
  "Maintain a moderate pace that is easy to follow.\n" ++
  "Use appropriate intonation and emphasis to convey meaning clearly."

/-- openai_client.PROMPT_OPTIMIZATION_SYSTEM (verbatim; literal braces that are
text in the Python source are written \x7b and \x7d here; the only replacement
fields spelled with plain braces are the two \x7blanguage\x7d occurrences).
Note the template contains literal JSON braces that Python str.format treats as
replacement fields with invalid names, so formatting this template raises. -/
def PROMPT_OPTIMIZATION_SYSTEM : String :=
  "System: # Role and Objective\n" ++
  "You are a linguist and speech recognition specialist with advanced expertise in the target language {language}.\n" ++
  "\n" ++
  "# Instructions\n" ++
  "Create a concise, highly optimized transcription prompt (≤500 characters) tailored for OpenAI\x27s gpt-4o-transcribe model. The prompt should maximize transcription accuracy for audio in the specified language.\n" ++
  "\n" ++
  "## Process\n" ++
  "- Analyze the initial audio transcription to identify:\n" ++
  "  - Topic and domain\n" ++
  "  - Key vocabulary, proper nouns, technical terms\n" ++
  "  - Style and register (formal, casual, technical, etc.)\n" ++
  "  - Language- or domain-specific terms to preserve\n" ++
  "\n" ++
  "# Output Requirements\n" ++
  "- The prompt must sequentially:\n" ++
  "  1. State the context, topic, and domain\n" ++
  "  2. List key vocabulary, names, technical/domain-specific terms\n" ++
  "  3. Specify expected style and register (e.g., formal/informal, include/exclude filler words)\n" ++
  "  4. Include guidance on any relevant language-specific transcription conventions for {language}\n" ++
  "- All elements must be drawn directly from the initial transcription analysis.\n" ++
  "\n" ++
  "# Constraints\n" ++
  "- Output only the final optimized prompt—no explanations, reasoning, or extraneous text.\n" ++
  "- The prompt must be ≤500 characters and comprehensive.\n" ++
  "- Prioritize actionable information to assist the transcription model.\n" ++
  "- If the prompt exceeds 500 characters or lacks required elements, return an error JSON: \x7b \x22error\x22: \x22Prompt exceeds length or is missing required elements.\x22 \x7d\n" ++
  "\n" ++
  "## Output Format\n" ++
  "Respond with a JSON object in this format:\n" ++
  "\n" ++
  "\x7b\n" ++
  "  \x22prompt\x22: \x22[your optimized prompt here]\x22\n" ++
  "\x7d\n" ++
  "\n" ++
  "- The \x22prompt\x22 value must be a string, ≤500 characters, containing all elements in the specified order.\n" ++
  "- If constraints are violated, respond with:\n" ++
  "\x7b\n" ++
  "  \x22error\x22: \x22Prompt exceeds length or is missing required elements.\x22\n" ++
  "\x7d\n" ++
  "\n" ++
  "### Example\n" ++
  "\n" ++
  "Input:\n" ++
  "- language: \x22Spanish\x22\n" ++
  "- initial transcription: \x22Esta es una conferencia académica sobre biología molecular...\x22\n" ++
  "\n" ++
  "Output:\n" ++
  "\x7b\n" ++
  "  \x22prompt\x22: \x22Context: Academic conference on molecular biology. Prioritize terms: biología molecular, ADN, ARN, enzimas. Style: Formal, exclude filler words. Use standard Spanish transcription conventions.\x22\n" ++
  "\x7d\n" ++
  "\n" ++
  "## Output Verbosity\n" ++
  "- Respond with only the required JSON object.\n" ++
  "- Do not include any additional text or explanations.\n" ++
  "- Ensure the total output is at most 2-3 lines.\n" ++
  "- Prioritize complete, actionable answers within the length cap."

/-- openai_client.LANGUAGE_CODE_TO_NAME in source order. -/
def LANGUAGE_CODE_TO_NAME : List (String × String) :=
  [("en", "English"), ("he", "Hebrew"), ("ru", "Russian"), ("es", "Spanish"),
   ("ar", "Arabic"), ("fr", "French"), ("de", "German"), ("it", "Italian"),
   ("pt", "Portuguese"), ("zh", "Chinese"), ("ja", "Japanese"), ("ko", "Korean"),
   ("hi", "Hindi"), ("pl", "Polish"), ("uk", "Ukrainian"), ("tr", "Turkish"),
   ("nl", "Dutch"), ("sv", "Swedish")]

/-- config.Settings field defaults used by the embedded code paths. -/
def settings_transcription_model : String := "gpt-4o-transcribe"

def settings_translation_model : String := "gpt-5.1"

def settings_tts_model_default : String := "gpt-4o-mini-tts"

/-- config.Settings.max_upload_size default (25 MB); declared in configuration but
never consulted by any validation code path. -/
def settings_max_upload_size : Nat := 26214400

/-! ### Error model (backend/core/exceptions.py error classes as kind tags) -/

inductive ErrKind where
  | validation
  | audioProcessing
  | transcription
  | translation
  | tts
  | generic
deriving DecidableEq

structure AppError where
  kind : ErrKind
  message : String
deriving DecidableEq

/-! ### Upstream request value types

Each structure holds exactly the request parameters the embedded code shapes
per call; an Option field is absent from the upstream request when none.
Constant parameters never branched on (response_format, sampling and reasoning
settings) are not modelled. -/

structure TranscribeReq where
  model : String
  language : Option String
  prompt : Option String
deriving DecidableEq

structure ChatReq where
  model : String
  system : String
  user : String
deriving DecidableEq

structure SpeechReq where
  model : String
  voice : String
  input : String
  instructions : Option String
deriving DecidableEq

/-- Raw audio bytes. -/
abbrev Bytes := List Nat

/-! ### OpenAIService (backend/services/openai_client.py) -/

/-- Request-parameter shaping of OpenAIService.transcribe_audio: the language is
sent only when truthy, the prompt only when truthy and the resolved model is
gpt-4o-transcribe or gpt-4o-mini-transcribe. -/
def transcribe_request_params (settingsModel : String)
    (language prompt model : Option String) : TranscribeReq :=
  let transcription_model := pyOrD model settingsModel
  { model := transcription_model
    language := if pyTruthy language then language else none
    prompt :=
      if pyTruthy prompt &&
          (transcription_model == "gpt-4o-transcribe" ||
           transcription_model == "gpt-4o-mini-transcribe") then prompt
      else none }

/-- OpenAIService.transcribe_audio: build the request, call upstream, wrap any
upstream exception into a transcription-kind error.  The returned pair is the
request actually issued and the outcome. -/
def svc_transcribe_audio (upstream : TranscribeReq → Except String (String × Option String))
    (settingsModel : String) (language prompt model : Option String) :
    TranscribeReq × Except AppError (String × Option String) :=
  let req := transcribe_request_params settingsModel language prompt model
  match upstream req with
  | .ok r => (req, .ok r)
  | .error e => (req, .error ⟨.transcription, "Transcription failed: " ++ e⟩)

/-- language_name resolution shared by generate_optimized_prompt:
LANGUAGE_CODE_TO_NAME.get(language.lower(), language.title()). -/
def languageDisplayName (language : String) : String :=
  dictGet LANGUAGE_CODE_TO_NAME (pyLower language) (pyTitle language)

/-- The deterministic fallback prompt generate_optimized_prompt substitutes on
any failure or empty completion. -/
def fallbackOptimizedPrompt (language : String) : String :=
  "Audio content in " ++ languageDisplayName language ++ "."

/-- OpenAIService.generate_optimized_prompt: format the optimization system
prompt (which raises, see PROMPT_OPTIMIZATION_SYSTEM), call the chat model,
and on any exception or falsy completion return the fallback prompt.  The
first component records the chat request issued, if any; the function is total:
no error ever propagates to the caller. -/
def svc_generate_optimized_prompt (chat : ChatReq → Except String (Option String))
    (language initial_transcription : String) : Option ChatReq × String :=
  let language_name := languageDisplayName language
  match pyFormat PROMPT_OPTIMIZATION_SYSTEM [("language", language_name)] with
  | .error _ => (none, fallbackOptimizedPrompt language)
  | .ok system_prompt =>
    let req : ChatReq :=
      { model := "gpt-5-mini", system := system_prompt
        user := "Language: " ++ language_name ++ "\n\nInitial transcription:\n" ++
          initial_transcription }
    match chat req with
    | .error _ => (some req, fallbackOptimizedPrompt language)
    | .ok content =>
      if pyTruthy content then (some req, pyStrip (content.getD ""))
      else (some req, fallbackOptimizedPrompt language)

/-- The chat request OpenAIService.translate_text issues (formatting the
translation system prompt can in principle raise, hence Except). -/
def translate_request (translationModel text source_language target_language : String) :
    Except String ChatReq :=
  (pyFormat TRANSLATION_SYSTEM_PROMPT
      [("source_language", source_language), ("target_language", target_language)]).map
    (fun sys => { model := translationModel, system := sys, user := text })

/-- OpenAIService.translate_text: call the chat model; a falsy completion raises
TranslationError inside the try block, which the handler rewraps; a truthy
completion is returned stripped. -/
def svc_translate_text (chat : ChatReq → Except String (Option String))
    (translationModel text source_language target_language : String) :
    Option ChatReq × Except AppError String :=
  match translate_request translationModel text source_language target_language with
  | .error e => (none, .error ⟨.translation, "Translation failed: " ++ e⟩)
  | .ok req =>
    match chat req with
    | .error e => (some req, .error ⟨.translation, "Translation failed: " ++ e⟩)
    | .ok content =>
      if pyTruthy content then (some req, .ok (pyStrip (content.getD "")))
      else
        (some req,
         .error ⟨.translation, "Translation failed: Translation returned empty response"⟩)

/-- Request-parameter shaping of OpenAIService.generate_speech: the instructions
field is attached only for gpt-4o-mini-tts, defaulted when the caller-supplied
instructions are falsy. -/
def speech_request_params (ttsDefault : String) (text voice : String)
    (model instructions : Option String) : SpeechReq :=
  let m := pyOrD model ttsDefault
  { model := m, voice := voice, input := text
    instructions :=
      if m == "gpt-4o-mini-tts" then some (pyOrD instructions DEFAULT_TTS_INSTRUCTIONS)
      else none }

/-- OpenAIService.generate_speech: build the request, call upstream, wrap any
upstream exception into a TTS-kind error, return the upstream bytes. -/
def svc_generate_speech (speech : SpeechReq → Except String Bytes)
    (ttsDefault : String) (text voice : String) (model instructions : Option String) :
    SpeechReq × Except AppError Bytes :=
  let req := speech_request_params ttsDefault text voice model instructions
  match speech req with
  | .ok b => (req, .ok b)
  | .error e => (req, .error ⟨.tts, "TTS generation failed: " ++ e⟩)

/-! ### File handlers (backend/utils/file_handlers.py) -/

/-- fastapi UploadFile, reduced to the fields the embedded code reads.  The
content is abstracted to its byte size: validate_audio_file never reads it. -/
structure UploadFile where
  filename : Option String
  content_type : Option String
  size : Nat
deriving DecidableEq

def valid_extensions : List String := [".mp3", ".ogg", ".wav", ".m4a"]

/-- file_handlers.validate_audio_file: missing/empty filename and disallowed
extensions raise FileValidationError; the content-type check only logs a
warning; the byte size of the upload is never inspected. -/
def validate_audio_file (file : UploadFile) : Except AppError Unit :=
  if pyTruthy file.filename = false then
    .error ⟨.validation, "No filename provided"⟩
  else if valid_extensions.contains (pyLower (pathSuffix (file.filename.getD ""))) then
    .ok ()
  else
    .error ⟨.validation,
      "Invalid file extension \x27" ++ pyLower (pathSuffix (file.filename.getD "")) ++
        "\x27. Allowed: " ++ String.intercalate ", " valid_extensions⟩

/-- Local filesystem state for cleanup_files: the set of existing paths plus a
fault model saying which unlink calls raise (e.g. permission errors). -/
structure FS where
  files : List String
  unlinkRaises : String → Bool

def FS.pathExists (fs : FS) (p : String) : Bool := decide (p ∈ fs.files)

def FS.removePath (fs : FS) (p : String) : FS :=
  { fs with files := fs.files.filter (fun q => decide (q ≠ p)) }

/-- Path.unlink: removes the file or raises per the fault model. -/
def unlinkPath (fs : FS) (p : String) : Except String FS :=
  if fs.unlinkRaises p then .error ("unlink raised for " ++ p)
  else .ok (fs.removePath p)

/-- The body of the per-path try block in cleanup_files: existence check, then
unlink only when the file exists. -/
def cleanupOne (fs : FS) (p : String) : Except String FS :=
  if fs.pathExists p then unlinkPath fs p else .ok fs

/-- The per-path try/except of cleanup_files: a raised exception is logged and
swallowed, leaving the filesystem state as it was. -/
def handleCleanup (fs : FS) (p : String) : FS :=
  match cleanupOne fs p with
  | .ok f => f
  | .error _ => fs

/-- file_handlers.cleanup_files: iterate over all paths, handling each inside
its own try/except. -/
def cleanup_files (fs : FS) (paths : List String) : FS :=
  paths.foldl handleCleanup fs

/-! ### Transcription route (backend/api/routes/v1/audio.py transcribe_audio) -/

/-- The upstream OpenAI endpoints as request-indexed oracles. -/
structure Oracle where
  transcribe : TranscribeReq → Except String (String × Option String)
  chat : ChatReq → Except String (Option String)

/-- TranscribeResponse schema value (language is always set by the route). -/
structure TranscribeResponse where
  text : String
  language : String
deriving DecidableEq

/-- Constructing the response model: the schema declares text with min_length 1,
so an empty final transcript fails response validation inside the try block and
is rewrapped by the generic handler. -/
def mkTranscribeResponse (text language : String) : Except AppError TranscribeResponse :=
  if text == "" then .error ⟨.generic, "Transcription failed: response validation error"⟩
  else .ok ⟨text, language⟩

/-- audio_converter.convert_to_mp3, abstracted over the ffmpeg outcome: a
conversion fault raises AudioProcessingError with the wrapped message. -/
def convert_to_mp3 (ffmpegFailure : Option String) : Except AppError Unit :=
  match ffmpegFailure with
  | none => .ok ()
  | some msg => .error ⟨.audioProcessing, "Audio conversion failed: " ++ msg⟩

/-- One route invocation outcome: the transcription and chat requests issued to
the upstream provider, in order, and the HTTP-level result (errors keep their
domain kind; the route maps validation errors to 400 and the rest to 500). -/
structure RouteOutcome where
  transcribeCalls : List TranscribeReq
  chatCalls : List ChatReq
  result : Except AppError TranscribeResponse

/-- Flow 2 of transcribe_audio (user-specified language l): initial transcription
with gpt-4o-mini-transcribe and the language hint, prompt optimization, refined
transcription with gpt-4o-transcribe, response language mapped through
LANGUAGE_CODE_TO_NAME with the raw hint as default. -/
def flow2 (oracle : Oracle) (settingsModel : String) (l : String) : RouteOutcome :=
  let s1 := svc_transcribe_audio oracle.transcribe settingsModel (some l) none
    (some "gpt-4o-mini-transcribe")
  match s1.2 with
  | .error e => ⟨[s1.1], [], .error e⟩
  | .ok (initial_text, _) =>
    let p := svc_generate_optimized_prompt oracle.chat l initial_text
    let s3 := svc_transcribe_audio oracle.transcribe settingsModel (some l) (some p.2)
      (some "gpt-4o-transcribe")
    match s3.2 with
    | .error e => ⟨[s1.1, s3.1], p.1.toList, .error e⟩
    | .ok (final_text, _) =>
      ⟨[s1.1, s3.1], p.1.toList,
        mkTranscribeResponse final_text (dictGet LANGUAGE_CODE_TO_NAME (pyLower l) l)⟩

/-- The initial transcription request of Flow 1 (auto-detect): whisper-1, no
language, no prompt. -/
def flowAInitialReq (settingsModel : String) : TranscribeReq :=
  transcribe_request_params settingsModel none none (some "whisper-1")

/-- Flow 1 of transcribe_audio (auto-detect): initial transcription with
whisper-1, detected language defaulted to "en" when falsy, prompt optimization,
refined transcription with gpt-4o-transcribe, response language mapped through
LANGUAGE_CODE_TO_NAME with the raw detected code as default. -/
def flow1 (oracle : Oracle) (settingsModel : String) : RouteOutcome :=
  let s1 := svc_transcribe_audio oracle.transcribe settingsModel none none
    (some "whisper-1")
  match s1.2 with
  | .error e => ⟨[s1.1], [], .error e⟩
  | .ok (initial_text, detected_lang) =>
    let detected_language := pyOrD detected_lang "en"
    let p := svc_generate_optimized_prompt oracle.chat detected_language initial_text
    let s3 := svc_transcribe_audio oracle.transcribe settingsModel
      (some detected_language) (some p.2) (some "gpt-4o-transcribe")
    match s3.2 with
    | .error e => ⟨[s1.1, s3.1], p.1.toList, .error e⟩
    | .ok (final_text, _) =>
      ⟨[s1.1, s3.1], p.1.toList,
        mkTranscribeResponse final_text
          (dictGet LANGUAGE_CODE_TO_NAME (pyLower detected_language) detected_language)⟩

/-- The transcribe_audio route handler: validate, save (saveOk models the
save_upload_file outcome), convert to MP3, then run the flow selected by the
truthiness of the language form field.  Cleanup scheduling is a background task
with no bearing on the response and is not modelled. -/
def transcribe_route (oracle : Oracle) (settingsModel : String)
    (ffmpegFailure : Option String) (saveOk : Bool) (file : UploadFile)
    (language : Option String) : RouteOutcome :=
  match validate_audio_file file with
  | .error e => ⟨[], [], .error e⟩
  | .ok _ =>
    if saveOk then
      match convert_to_mp3 ffmpegFailure with
      | .error e => ⟨[], [], .error e⟩
      | .ok _ =>
        if pyTruthy language then flow2 oracle settingsModel (language.getD "")
        else flow1 oracle settingsModel
    else ⟨[], [], .error ⟨.generic, "Transcription failed: could not save upload"⟩⟩

/-! ### CodexClient.query (mcp_servers/codex/client.py) -/

/-- Outcome of one _make_request attempt, by exception class: TimeoutError and
APITimeoutError share a handler; RateLimitError is matched before its APIError
superclass; the messages carry str(e).  The ok payload abstracts the extracted
output text of _make_request. -/
inductive ReqOutcome where
  | ok (output : String)
  | timeoutErr (msg : String)
  | rateLimitErr (msg : String)
  | apiErr (msg : String)
  | otherErr (msg : String)
deriving DecidableEq

/-- CodexResponse, reduced to the fields the retry logic sets (token counts are
always defaulted on failure paths and copied from the response on success). -/
structure CodexResponse where
  success : Bool
  output : String
  error : Option String
  model : String
deriving DecidableEq

def MAX_RETRIES : Nat := 3

/-- Python str(last_error) where last_error: Exception | None. -/
def strOfLast : Option String → String
  | none => "None"
  | some s => s

/-- Trace of one query call: number of upstream attempts issued, the sleep
durations between attempts (in seconds; RETRY_DELAY = 1.0), and the returned
CodexResponse. -/
structure QueryTrace where
  attempts : Nat
  delays : List Nat
  response : CodexResponse
deriving DecidableEq

/-- The retry loop of CodexClient.query: attempt is the 0-based loop index, fuel
the remaining iterations of range(MAX_RETRIES).  Timeouts sleep
RETRY_DELAY * 2 ** attempt, rate limits twice that; both only when another
iteration remains.  APIError and any other exception return immediately. -/
def queryLoop (beh : Nat → ReqOutcome) (model : String) :
    Nat → Nat → Option String → QueryTrace
  | attempt, 0, lastErr =>
    ⟨attempt, [],
     ⟨false, "", some ("Request failed after 3 retries: " ++ strOfLast lastErr), model⟩⟩
  | attempt, fuel + 1, _ =>
    match beh attempt with
    | .ok out => ⟨attempt + 1, [], ⟨true, out, none, model⟩⟩
    | .timeoutErr m =>
      if attempt < MAX_RETRIES - 1 then
        let t := queryLoop beh model (attempt + 1) fuel (some m)
        ⟨t.attempts, 2 ^ attempt :: t.delays, t.response⟩
      else
        let t := queryLoop beh model (attempt + 1) fuel (some m)
        ⟨t.attempts, t.delays, t.response⟩
    | .rateLimitErr m =>
      if attempt < MAX_RETRIES - 1 then
        let t := queryLoop beh model (attempt + 1) fuel (some m)
        ⟨t.attempts, 2 ^ (attempt + 1) :: t.delays, t.response⟩
      else
        let t := queryLoop beh model (attempt + 1) fuel (some m)
        ⟨t.attempts, t.delays, t.response⟩
    | .apiErr m => ⟨attempt + 1, [], ⟨false, "", some ("API Error: " ++ m), model⟩⟩
    | .otherErr m =>
      ⟨attempt + 1, [], ⟨false, "", some ("Unexpected error: " ++ m), model⟩⟩

/-- CodexClient.query: availability gate, then the retry loop over
range(MAX_RETRIES). -/
def codex_query (apiKeyConfigured : Bool) (beh : Nat → ReqOutcome)
    (model : String) : QueryTrace :=
  if apiKeyConfigured then queryLoop beh model 0 MAX_RETRIES none
  else
    ⟨0, [],
     ⟨false, "", some "OPENAI_API_KEY not configured. Add it to .mcp.json env section.",
      model⟩⟩

/-! ### Helper lemmas -/

theorem pyTruthy_some_iff {s : String} : pyTruthy (some s) = true ↔ s ≠ "" := by
  simp [pyTruthy]

theorem pyTruthy_eq_false_iff {o : Option String} :
    pyTruthy o = false ↔ o = none ∨ o = some "" := by
  cases o with
  | none => simp [pyTruthy]
  | some s => simp [pyTruthy]

theorem pyOrD_of_falsy {o : Option String} {d : String} (h : pyTruthy o = false) :
    pyOrD o d = d := by
  rcases pyTruthy_eq_false_iff.mp h with h' | h' <;> subst h' <;> simp [pyOrD]

theorem pyOrD_of_truthy {s : String} {d : String} (h : s ≠ "") :
    pyOrD (some s) d = s := by
  simp [pyOrD, h]

theorem pyOrD_ne_empty {o : Option String} {d : String} (h : d ≠ "") :
    pyOrD o d ≠ "" := by
  cases o with
  | none => simpa [pyOrD] using h
  | some s =>
    by_cases hs : s = "" <;> simp [pyOrD, hs, h]

theorem dictGet_ne_empty {d : List (String × String)}
    (hvals : ∀ p ∈ d, p.2 ≠ "") {k dflt : String} (h : dflt ≠ "") :
    dictGet d k dflt ≠ "" := by
  induction d with
  | nil => simpa [dictGet] using h
  | cons p rest ih =>
    obtain ⟨a, b⟩ := p
    have hb : b ≠ "" := hvals ⟨a, b⟩ (by simp)
    have hrest : ∀ q ∈ rest, q.2 ≠ "" := fun q hq => hvals q (by simp [hq])
    by_cases hk : k == a
    · simpa [dictGet, hk] using hb
    · simpa [dictGet, hk] using ih hrest

theorem lang_table_vals_ne_empty : ∀ p ∈ LANGUAGE_CODE_TO_NAME, p.2 ≠ "" := by decide

theorem string_append_ne_empty {a : String} (b c : String) (ha : a.data ≠ []) :
    a ++ b ++ c ≠ "" := by
  intro h
  have hd : (a ++ b ++ c).data = "".data := by rw [h]
  rw [String.data_append, String.data_append] at hd
  simp only [List.append_assoc, String.data] at hd
  rcases List.append_eq_nil.mp hd with ⟨h1, _⟩
  exact ha h1

theorem fallback_prompt_ne_empty (l : String) : fallbackOptimizedPrompt l ≠ "" := by
  unfold fallbackOptimizedPrompt
  exact string_append_ne_empty _ _ (by decide)

theorem fallback_prompt_truthy (l : String) :
    pyTruthy (some (fallbackOptimizedPrompt l)) = true :=
  pyTruthy_some_iff.mpr (fallback_prompt_ne_empty l)

/-- PROMPT_OPTIMIZATION_SYSTEM contains literal JSON braces that Python
str.format parses as a replacement field named \x22 error\x22, so formatting it
raises a KeyError no matter what value the language keyword carries. -/
theorem prompt_optimization_format_raises (v : String) :
    pyFormat PROMPT_OPTIMIZATION_SYSTEM [("language", v)] =
      .error "KeyError:  \x22error\x22" := rfl

/-- generate_optimized_prompt never reaches its chat call and always returns the
deterministic fallback prompt: the str.format call at the top of its try block
raises, the except-handler swallows the exception and substitutes the default. -/
theorem gen_opt_always_fallback (chat : ChatReq → Except String (Option String))
    (language initial_transcription : String) :
    svc_generate_optimized_prompt chat language initial_transcription =
      (none, fallbackOptimizedPrompt language) := rfl

theorem mkTranscribeResponse_ok {t l : String} {r : TranscribeResponse}
    (h : mkTranscribeResponse t l = .ok r) : r.text = t ∧ r.language = l ∧ t ≠ "" := by
  unfold mkTranscribeResponse at h
  by_cases ht : t == ""
  · simp [ht] at h
  · simp only [ht, if_neg, Bool.false_eq_true, reduceIte] at h
    cases h
    exact ⟨rfl, rfl, by simpa using ht⟩

theorem validate_err_kind {file : UploadFile} {e : AppError}
    (h : validate_audio_file file = .error e) : e.kind = .validation := by
  unfold validate_audio_file at h
  split at h
  · cases h; rfl
  · split at h
    · cases h
    · cases h; rfl

theorem validate_no_filename {file : UploadFile} (h : pyTruthy file.filename = false) :
    validate_audio_file file = .error ⟨.validation, "No filename provided"⟩ := by
  unfold validate_audio_file
  simp [h]

theorem validate_bad_extension {file : UploadFile} (h : pyTruthy file.filename = true)
    (hext : valid_extensions.contains
      (pyLower (pathSuffix (file.filename.getD ""))) = false) :
    ∃ m, validate_audio_file file = .error ⟨.validation, m⟩ := by
  unfold validate_audio_file
  have hext2 : ¬ pyLower (pathSuffix (file.filename.getD "")) ∈ valid_extensions := by
    simpa using hext
  simp [h, hext2]

/-! ### Flow and route characterization lemmas -/

/-- The initial transcription request of Flow 2 for hint l. -/
def flow2InitReq (settingsModel l : String) : TranscribeReq :=
  transcribe_request_params settingsModel (some l) none (some "gpt-4o-mini-transcribe")

/-- The refined transcription request of Flow 2: the optimized prompt is always
the fallback prompt (gen_opt_always_fallback). -/
def flow2FinalReq (settingsModel l : String) : TranscribeReq :=
  transcribe_request_params settingsModel (some l) (some (fallbackOptimizedPrompt l))
    (some "gpt-4o-transcribe")

/-- The refined transcription request of Flow 1 for resolved detected language d. -/
def flow1FinalReq (settingsModel d : String) : TranscribeReq :=
  transcribe_request_params settingsModel (some d) (some (fallbackOptimizedPrompt d))
    (some "gpt-4o-transcribe")

theorem flow2_init_err (oracle : Oracle) (sm l : String) (e : String)
    (h : oracle.transcribe (flow2InitReq sm l) = .error e) :
    flow2 oracle sm l = ⟨[flow2InitReq sm l], [],
      .error ⟨.transcription, "Transcription failed: " ++ e⟩⟩ := by
  have h' : oracle.transcribe (transcribe_request_params sm (some l) none
      (some "gpt-4o-mini-transcribe")) = .error e := h
  simp only [flow2, svc_transcribe_audio, h', flow2InitReq]

theorem flow2_final_err (oracle : Oracle) (sm l : String) (t : String)
    (dl : Option String) (e : String)
    (h1 : oracle.transcribe (flow2InitReq sm l) = .ok (t, dl))
    (h3 : oracle.transcribe (flow2FinalReq sm l) = .error e) :
    flow2 oracle sm l = ⟨[flow2InitReq sm l, flow2FinalReq sm l], [],
      .error ⟨.transcription, "Transcription failed: " ++ e⟩⟩ := by
  have h1' : oracle.transcribe (transcribe_request_params sm (some l) none
      (some "gpt-4o-mini-transcribe")) = .ok (t, dl) := h1
  have h3' : oracle.transcribe (transcribe_request_params sm (some l)
      (some (fallbackOptimizedPrompt l)) (some "gpt-4o-transcribe")) = .error e := h3
  simp only [flow2, svc_transcribe_audio, gen_opt_always_fallback, h1', h3',
    flow2InitReq, flow2FinalReq, Option.toList]

theorem flow2_ok (oracle : Oracle) (sm l : String) (t : String) (dl : Option String)
    (ft : String) (dl2 : Option String)
    (h1 : oracle.transcribe (flow2InitReq sm l) = .ok (t, dl))
    (h3 : oracle.transcribe (flow2FinalReq sm l) = .ok (ft, dl2)) :
    flow2 oracle sm l = ⟨[flow2InitReq sm l, flow2FinalReq sm l], [],
      mkTranscribeResponse ft (dictGet LANGUAGE_CODE_TO_NAME (pyLower l) l)⟩ := by
  have h1' : oracle.transcribe (transcribe_request_params sm (some l) none
      (some "gpt-4o-mini-transcribe")) = .ok (t, dl) := h1
  have h3' : oracle.transcribe (transcribe_request_params sm (some l)
      (some (fallbackOptimizedPrompt l)) (some "gpt-4o-transcribe")) = .ok (ft, dl2) := h3
  simp only [flow2, svc_transcribe_audio, gen_opt_always_fallback, h1', h3',
    flow2InitReq, flow2FinalReq, Option.toList]

theorem flow1_init_err (oracle : Oracle) (sm : String) (e : String)
    (h : oracle.transcribe (flowAInitialReq sm) = .error e) :
    flow1 oracle sm = ⟨[flowAInitialReq sm], [],
      .error ⟨.transcription, "Transcription failed: " ++ e⟩⟩ := by
  have h' : oracle.transcribe (transcribe_request_params sm none none
      (some "whisper-1")) = .error e := h
  simp only [flow1, svc_transcribe_audio, h', flowAInitialReq]

theorem flow1_final_err (oracle : Oracle) (sm : String) (t : String)
    (dl : Option String) (e : String)
    (h1 : oracle.transcribe (flowAInitialReq sm) = .ok (t, dl))
    (h3 : oracle.transcribe (flow1FinalReq sm (pyOrD dl "en")) = .error e) :
    flow1 oracle sm = ⟨[flowAInitialReq sm, flow1FinalReq sm (pyOrD dl "en")], [],
      .error ⟨.transcription, "Transcription failed: " ++ e⟩⟩ := by
  have h1' : oracle.transcribe (transcribe_request_params sm none none
      (some "whisper-1")) = .ok (t, dl) := h1
  have h3' : oracle.transcribe (transcribe_request_params sm (some (pyOrD dl "en"))
      (some (fallbackOptimizedPrompt (pyOrD dl "en")))
      (some "gpt-4o-transcribe")) = .error e := h3
  simp only [flow1, svc_transcribe_audio, gen_opt_always_fallback, h1', h3',
    flowAInitialReq, flow1FinalReq, Option.toList]

theorem flow1_ok (oracle : Oracle) (sm : String) (t : String) (dl : Option String)
    (ft : String) (dl2 : Option String)
    (h1 : oracle.transcribe (flowAInitialReq sm) = .ok (t, dl))
    (h3 : oracle.transcribe (flow1FinalReq sm (pyOrD dl "en")) = .ok (ft, dl2)) :
    flow1 oracle sm = ⟨[flowAInitialReq sm, flow1FinalReq sm (pyOrD dl "en")], [],
      mkTranscribeResponse ft
        (dictGet LANGUAGE_CODE_TO_NAME (pyLower (pyOrD dl "en")) (pyOrD dl "en"))⟩ := by
  have h1' : oracle.transcribe (transcribe_request_params sm none none
      (some "whisper-1")) = .ok (t, dl) := h1
  have h3' : oracle.transcribe (transcribe_request_params sm (some (pyOrD dl "en"))
      (some (fallbackOptimizedPrompt (pyOrD dl "en")))
      (some "gpt-4o-transcribe")) = .ok (ft, dl2) := h3
  simp only [flow1, svc_transcribe_audio, gen_opt_always_fallback, h1', h3',
    flowAInitialReq, flow1FinalReq, Option.toList]

theorem route_validate_err (oracle : Oracle) (sm : String) (ff : Option String)
    (saveOk : Bool) (file : UploadFile) (language : Option String) (e : AppError)
    (hv : validate_audio_file file = .error e) :
    transcribe_route oracle sm ff saveOk file language = ⟨[], [], .error e⟩ := by
  unfold transcribe_route
  rw [hv]

theorem route_convert_err (oracle : Oracle) (sm : String) (m : String)
    (file : UploadFile) (language : Option String)
    (hv : validate_audio_file file = .ok ()) :
    transcribe_route oracle sm (some m) true file language =
      ⟨[], [], .error ⟨.audioProcessing, "Audio conversion failed: " ++ m⟩⟩ := by
  unfold transcribe_route
  rw [hv]
  rfl

theorem route_to_flow (oracle : Oracle) (sm : String) (file : UploadFile)
    (language : Option String) (hv : validate_audio_file file = .ok ()) :
    transcribe_route oracle sm none true file language =
      (if pyTruthy language then flow2 oracle sm (language.getD "")
       else flow1 oracle sm) := by
  unfold transcribe_route
  rw [hv]
  rfl

theorem truthy_some_getD {language : Option String}
    (h : pyTruthy language = true) : language = some (language.getD "") := by
  cases language with
  | none => simp [pyTruthy] at h
  | some s => rfl

theorem truthy_getD_ne {language : Option String}
    (h : pyTruthy language = true) : language.getD "" ≠ "" := by
  cases language with
  | none => simp [pyTruthy] at h
  | some s => simpa [pyTruthy] using h

/-- Every successful route result carries a language resolved through the static
table with the raw code as default: the hint itself in Flow 2, and the
detected-or-"en" code in Flow 1 (whose value is pinned by the oracle response to
the initial whisper-1 request). -/
theorem route_result_ok_char (oracle : Oracle) (sm : String) (ff : Option String)
    (saveOk : Bool) (file : UploadFile) (language : Option String)
    (resp : TranscribeResponse)
    (h : (transcribe_route oracle sm ff saveOk file language).result = .ok resp) :
    ∃ l0 ft, resp = ⟨ft, dictGet LANGUAGE_CODE_TO_NAME (pyLower l0) l0⟩ ∧ ft ≠ "" ∧
      l0 ≠ "" ∧
      ((pyTruthy language = true ∧ language = some l0) ∨
       (pyTruthy language = false ∧
        ∃ t dl, oracle.transcribe (flowAInitialReq sm) = .ok (t, dl) ∧
          l0 = pyOrD dl "en")) := by
  rcases hv : validate_audio_file file with e | u
  · rw [route_validate_err oracle sm ff saveOk file language e hv] at h
    cases h
  · cases u
    cases saveOk with
    | false =>
      unfold transcribe_route at h
      rw [hv] at h
      cases h
    | true =>
      rcases hff : ff with _ | m
      · subst hff
        rw [route_to_flow oracle sm file language hv] at h
        by_cases hl : pyTruthy language = true
        · rw [if_pos hl] at h
          rcases h1 : oracle.transcribe (flow2InitReq sm (language.getD "")) with
            e1 | ⟨t, dl⟩
          · rw [flow2_init_err oracle sm (language.getD "") e1 h1] at h
            cases h
          · rcases h3 : oracle.transcribe (flow2FinalReq sm (language.getD "")) with
              e3 | ⟨ft, dl2⟩
            · rw [flow2_final_err oracle sm (language.getD "") t dl e3 h1 h3] at h
              cases h
            · rw [flow2_ok oracle sm (language.getD "") t dl ft dl2 h1 h3] at h
              obtain ⟨htext, hlang, hne⟩ := mkTranscribeResponse_ok h
              refine ⟨language.getD "", ft, ?_, hne, truthy_getD_ne hl,
                Or.inl ⟨hl, truthy_some_getD hl⟩⟩
              cases resp
              simp only at htext hlang
              rw [htext, hlang]
        · have hl' : pyTruthy language = false := by simpa using hl
          rw [if_neg hl] at h
          rcases h1 : oracle.transcribe (flowAInitialReq sm) with e1 | ⟨t, dl⟩
          · rw [flow1_init_err oracle sm e1 h1] at h
            cases h
          · rcases h3 : oracle.transcribe (flow1FinalReq sm (pyOrD dl "en")) with
              e3 | ⟨ft, dl2⟩
            · rw [flow1_final_err oracle sm t dl e3 h1 h3] at h
              cases h
            · rw [flow1_ok oracle sm t dl ft dl2 h1 h3] at h
              obtain ⟨htext, hlang, hne⟩ := mkTranscribeResponse_ok h
              refine ⟨pyOrD dl "en", ft, ?_, hne, pyOrD_ne_empty (by decide),
                Or.inr ⟨hl', t, dl, rfl, rfl⟩⟩
              cases resp
              simp only at htext hlang
              rw [htext, hlang]
      · subst hff
        rw [route_convert_err oracle sm m file language hv] at h
        cases h

/-- The first transcription request the route issues is determined by the flow
selector: gpt-4o-mini-transcribe with the hint under Flow 2, whisper-1 with no
language under Flow 1. -/
theorem route_calls_head_char (oracle : Oracle) (sm : String) (ff : Option String)
    (saveOk : Bool) (file : UploadFile) (language : Option String) (r : TranscribeReq)
    (h : (transcribe_route oracle sm ff saveOk file language).transcribeCalls.head?
      = some r) :
    (pyTruthy language = true ∧ r = flow2InitReq sm (language.getD "")) ∨
    (pyTruthy language = false ∧ r = flowAInitialReq sm) := by
  rcases hv : validate_audio_file file with e | u
  · rw [route_validate_err oracle sm ff saveOk file language e hv] at h
    cases h
  · cases u
    cases saveOk with
    | false =>
      unfold transcribe_route at h
      rw [hv] at h
      cases h
    | true =>
      rcases hff : ff with _ | m
      · subst hff
        rw [route_to_flow oracle sm file language hv] at h
        by_cases hl : pyTruthy language = true
        · rw [if_pos hl] at h
          refine Or.inl ⟨hl, ?_⟩
          rcases h1 : oracle.transcribe (flow2InitReq sm (language.getD "")) with
            e1 | ⟨t, dl⟩
          · rw [flow2_init_err oracle sm (language.getD "") e1 h1] at h
            simpa using h.symm
          · rcases h3 : oracle.transcribe (flow2FinalReq sm (language.getD "")) with
              e3 | ⟨ft, dl2⟩
            · rw [flow2_final_err oracle sm (language.getD "") t dl e3 h1 h3] at h
              simpa using h.symm
            · rw [flow2_ok oracle sm (language.getD "") t dl ft dl2 h1 h3] at h
              simpa using h.symm
        · have hl' : pyTruthy language = false := by simpa using hl
          rw [if_neg hl] at h
          refine Or.inr ⟨hl', ?_⟩
          rcases h1 : oracle.transcribe (flowAInitialReq sm) with e1 | ⟨t, dl⟩
          · rw [flow1_init_err oracle sm e1 h1] at h
            simpa using h.symm
          · rcases h3 : oracle.transcribe (flow1FinalReq sm (pyOrD dl "en")) with
              e3 | ⟨ft, dl2⟩
            · rw [flow1_final_err oracle sm t dl e3 h1 h3] at h
              simpa using h.symm
            · rw [flow1_ok oracle sm t dl ft dl2 h1 h3] at h
              simpa using h.symm
      · subst hff
        rw [route_convert_err oracle sm m file language hv] at h
        cases h

/-! ### cleanup_files lemmas -/

theorem handleCleanup_cases (fs : FS) (q : String) :
    handleCleanup fs q =
      if fs.pathExists q then (if fs.unlinkRaises q then fs else fs.removePath q)
      else fs := by
  unfold handleCleanup cleanupOne unlinkPath
  by_cases h1 : fs.pathExists q <;> by_cases h2 : fs.unlinkRaises q <;> simp [h1, h2]

theorem removePath_pathExists_self (fs : FS) (p : String) :
    (fs.removePath p).pathExists p = false := by
  simp [FS.removePath, FS.pathExists, List.mem_filter]

theorem removePath_pathExists_false {fs : FS} {p : String}
    (h : fs.pathExists p = false) (q : String) :
    (fs.removePath q).pathExists p = false := by
  simp only [FS.pathExists, decide_eq_false_iff_not] at h ⊢
  intro hmem
  exact h (List.mem_of_mem_filter hmem)

theorem handleCleanup_unlinkRaises (fs : FS) (p q : String) :
    (handleCleanup fs q).unlinkRaises p = fs.unlinkRaises p := by
  rw [handleCleanup_cases]
  by_cases h1 : fs.pathExists q <;> by_cases h2 : fs.unlinkRaises q <;>
    simp [h1, h2, FS.removePath]

theorem handleCleanup_pathExists_false (fs : FS) {p : String}
    (h : fs.pathExists p = false) (q : String) :
    (handleCleanup fs q).pathExists p = false := by
  rw [handleCleanup_cases]
  by_cases h1 : fs.pathExists q <;> by_cases h2 : fs.unlinkRaises q <;>
    simp [h1, h2, h, removePath_pathExists_false h q]

theorem cleanup_files_pathExists_false {p : String} :
    ∀ (paths : List String) (fs : FS), fs.pathExists p = false →
      (cleanup_files fs paths).pathExists p = false := by
  intro paths
  induction paths with
  | nil => intro fs h; exact h
  | cons q rest ih =>
    intro fs h
    exact ih (handleCleanup fs q) (handleCleanup_pathExists_false fs h q)

theorem cleanup_files_removes {p : String} :
    ∀ (paths : List String) (fs : FS), p ∈ paths → fs.unlinkRaises p = false →
      (cleanup_files fs paths).pathExists p = false := by
  intro paths
  induction paths with
  | nil => intro fs hp _; cases hp
  | cons q rest ih =>
    intro fs hp hr
    rcases List.mem_cons.mp hp with hq | hrest2
    · subst hq
      apply cleanup_files_pathExists_false rest
      rw [handleCleanup_cases]
      by_cases h1 : fs.pathExists p
      · rw [if_pos h1, if_neg (by simp [hr])]
        exact removePath_pathExists_self fs p
      · rw [if_neg h1]
        simpa using h1
    · exact ih (handleCleanup fs q) hrest2
        (by rw [handleCleanup_unlinkRaises]; exact hr)

/-! ### CodexClient.query lemmas -/

/-- The two exception classes the retry loop retries on. -/
def isRetryable : ReqOutcome → Bool
  | .timeoutErr _ => true
  | .rateLimitErr _ => true
  | _ => false

/-- The sleep duration (in units of RETRY_DELAY = 1.0 s) the loop inserts after
a retryable failure at the given attempt index: exponential backoff with base
factor 1 for timeouts and 2 for rate limits. -/
def retryDelay : ReqOutcome → Nat → Nat
  | .timeoutErr _, attempt => 2 ^ attempt
  | .rateLimitErr _, attempt => 2 ^ (attempt + 1)
  | _, _ => 0

theorem retryable_shape {o : ReqOutcome} (h : isRetryable o = true) :
    (∃ m, o = .timeoutErr m) ∨ (∃ m, o = .rateLimitErr m) := by
  cases o <;> simp [isRetryable] at h ⊢

theorem queryLoop_attempts_le (beh : Nat → ReqOutcome) (model : String) :
    ∀ (fuel attempt : Nat) (lastErr : Option String),
      (queryLoop beh model attempt fuel lastErr).attempts ≤ attempt + fuel := by
  intro fuel
  induction fuel with
  | zero => intro attempt lastErr; simp [queryLoop]
  | succ n ih =>
    intro attempt lastErr
    cases hb : beh attempt with
    | ok out => simp [queryLoop, hb]
    | timeoutErr m =>
      simp only [queryLoop, hb]
      have h := ih (attempt + 1) (some m)
      split <;>
        · show (queryLoop beh model (attempt + 1) n (some m)).attempts ≤ attempt + (n + 1)
          omega
    | rateLimitErr m =>
      simp only [queryLoop, hb]
      have h := ih (attempt + 1) (some m)
      split <;>
        · show (queryLoop beh model (attempt + 1) n (some m)).attempts ≤ attempt + (n + 1)
          omega
    | apiErr m => simp [queryLoop, hb]
    | otherErr m => simp [queryLoop, hb]

theorem query_api_err_immediate (beh : Nat → ReqOutcome) (model : String) (m : String)
    (hb : beh 0 = .apiErr m) :
    codex_query true beh model =
      ⟨1, [], ⟨false, "", some ("API Error: " ++ m), model⟩⟩ := by
  show queryLoop beh model 0 (2 + 1) none = _
  simp [queryLoop, hb]

theorem query_other_err_immediate (beh : Nat → ReqOutcome) (model : String) (m : String)
    (hb : beh 0 = .otherErr m) :
    codex_query true beh model =
      ⟨1, [], ⟨false, "", some ("Unexpected error: " ++ m), model⟩⟩ := by
  show queryLoop beh model 0 (2 + 1) none = _
  simp [queryLoop, hb]

theorem query_exhausts_retries (beh : Nat → ReqOutcome) (model : String)
    (h0 : isRetryable (beh 0) = true) (h1 : isRetryable (beh 1) = true)
    (h2 : isRetryable (beh 2) = true) :
    (codex_query true beh model).attempts = 3 ∧
    (codex_query true beh model).response.success = false ∧
    (codex_query true beh model).delays =
      [retryDelay (beh 0) 0, retryDelay (beh 1) 1] := by
  rcases retryable_shape h0 with ⟨m0, e0⟩ | ⟨m0, e0⟩ <;>
    rcases retryable_shape h1 with ⟨m1, e1⟩ | ⟨m1, e1⟩ <;>
      rcases retryable_shape h2 with ⟨m2, e2⟩ | ⟨m2, e2⟩ <;>
        simp [codex_query, queryLoop, e0, e1, e2, retryDelay, strOfLast, MAX_RETRIES]

/-! ### Concrete oracles and inputs used by witnesses and counterexamples -/

/-- Oracle whose whisper call yields ("hello", detected "en") and whose refined
call yields ("goodbye", "en"); every chat call raises. -/
def exOracle : Oracle :=
  { transcribe := fun req =>
      if req.model == "whisper-1" then .ok ("hello", some "en")
      else .ok ("goodbye", some "en")
    chat := fun _ => .error "boom" }

/-- Oracle whose whisper call omits the detected language. -/
def exOracleNoLang : Oracle :=
  { transcribe := fun req =>
      if req.model == "whisper-1" then .ok ("hi there", none)
      else .ok ("final text", some "en")
    chat := fun _ => .error "network down" }

def exFile : UploadFile := ⟨some "sample.mp3", some "audio/mpeg", 2048⟩

def exFileNoName : UploadFile := ⟨none, some "audio/mpeg", 4⟩

/-- An upload one byte above the configured 25 MB limit. -/
def exFileBig : UploadFile := ⟨some "big.mp3", some "audio/mpeg", 26214401⟩

/-! ### Claims -/

/-- C3: for every synthesize call whose selected TTS model is not
gpt-4o-mini-tts, a supplied non-empty style instruction is silently dropped:
the upstream speech request carries no instructions field, no error arises from
the instruction, and the upstream audio bytes are returned to the caller. -/
theorem claim_c3 (speech : SpeechReq → Except String Bytes)
    (ttsDefault text voice : String) (model instructions : Option String)
    (hm : pyOrD model ttsDefault ≠ "gpt-4o-mini-tts")
    (_hi : pyTruthy instructions = true) :
    (speech_request_params ttsDefault text voice model instructions).instructions = none
  ∧ ∀ b, speech (speech_request_params ttsDefault text voice model instructions) = .ok b →
      svc_generate_speech speech ttsDefault text voice model instructions =
        (speech_request_params ttsDefault text voice model instructions, .ok b) := by
  have hb : (pyOrD model ttsDefault == "gpt-4o-mini-tts") = false :=
    beq_eq_false_iff_ne.mpr hm
  constructor
  · simp [speech_request_params, hb]
  · intro b hsp
    simp [svc_generate_speech, hsp]

theorem claim_c3_witness :
    (speech_request_params settings_tts_model_default "Test" "onyx" (some "tts-1")
        (some "Cheerful tone")).instructions = none ∧
    svc_generate_speech (fun _ => .ok [1, 2, 3]) settings_tts_model_default "Test" "onyx"
        (some "tts-1") (some "Cheerful tone") =
      (speech_request_params settings_tts_model_default "Test" "onyx" (some "tts-1")
        (some "Cheerful tone"), .ok [1, 2, 3]) := by
  have h := claim_c3 (fun _ => .ok [1, 2, 3]) settings_tts_model_default "Test" "onyx"
    (some "tts-1") (some "Cheerful tone") (by decide) (by decide)
  exact ⟨h.1, h.2 [1, 2, 3] rfl⟩

/-- C4 counterexample: a whitespace-only completion is truthy, so it passes the
emptiness check and is returned stripped, making a successful translate call
return the empty string. -/
theorem claim_c4_counterexample :
    (svc_translate_text (fun _ => .ok (some " ")) settings_translation_model "Hello"
        "English" "Spanish").2 = .ok "" ∧ (" " : String) ≠ "" :=
  ⟨rfl, by decide⟩

/-- C4 (amended): an empty or missing completion raises a translation-kind error
and is never returned; a non-empty completion is returned stripped, so a
whitespace-only completion strips to the empty string and is returned as a
success (the emptiness check precedes stripping). -/
theorem claim_c4 (chat : ChatReq → Except String (Option String))
    (translationModel text sl tl : String) :
    ∃ req, translate_request translationModel text sl tl = .ok req ∧
      ((chat req = .ok none ∨ chat req = .ok (some "")) →
        svc_translate_text chat translationModel text sl tl =
          (some req, .error ⟨.translation,
            "Translation failed: Translation returned empty response"⟩))
    ∧ (∀ e, chat req = .error e →
        svc_translate_text chat translationModel text sl tl =
          (some req, .error ⟨.translation, "Translation failed: " ++ e⟩))
    ∧ (∀ c, chat req = .ok (some c) → c ≠ "" →
        svc_translate_text chat translationModel text sl tl =
          (some req, .ok (pyStrip c))) := by
  obtain ⟨req, hreq⟩ : ∃ req, translate_request translationModel text sl tl = .ok req :=
    ⟨_, rfl⟩
  refine ⟨req, hreq, ?_, ?_, ?_⟩
  · intro hc
    rcases hc with hc | hc <;> simp [svc_translate_text, hreq, hc, pyTruthy]
  · intro e he
    simp [svc_translate_text, hreq, he]
  · intro c hc hcne
    simp [svc_translate_text, hreq, hc, pyTruthy_some_iff.mpr hcne]

theorem claim_c4_witness :
    (svc_translate_text (fun _ => .ok (some "Hola")) settings_translation_model "Hello"
        "English" "Spanish").2 = .ok "Hola" := by
  obtain ⟨req, hreq, hempty, herr, hok⟩ := claim_c4 (fun _ => .ok (some "Hola"))
    settings_translation_model "Hello" "English" "Spanish"
  rw [hok "Hola" rfl (by decide)]
  rfl

/-- C7: the deep-reasoning query retries timeouts and rate limits with
exponential backoff (delay 2 ** attempt, doubled for rate limits) up to
MAX_RETRIES = 3 total attempts, and fails immediately with an unsuccessful
CodexResponse on any other error class. -/
theorem claim_c7 (beh : Nat → ReqOutcome) (model : String) :
    (codex_query true beh model).attempts ≤ MAX_RETRIES
  ∧ (∀ m, beh 0 = .apiErr m → codex_query true beh model =
      ⟨1, [], ⟨false, "", some ("API Error: " ++ m), model⟩⟩)
  ∧ (∀ m, beh 0 = .otherErr m → codex_query true beh model =
      ⟨1, [], ⟨false, "", some ("Unexpected error: " ++ m), model⟩⟩)
  ∧ (isRetryable (beh 0) = true → isRetryable (beh 1) = true →
      isRetryable (beh 2) = true →
      (codex_query true beh model).attempts = 3 ∧
      (codex_query true beh model).response.success = false ∧
      (codex_query true beh model).delays =
        [retryDelay (beh 0) 0, retryDelay (beh 1) 1]) := by
  refine ⟨?_, fun m hb => query_api_err_immediate beh model m hb,
    fun m hb => query_other_err_immediate beh model m hb,
    fun h0 h1 h2 => query_exhausts_retries beh model h0 h1 h2⟩
  show (queryLoop beh model 0 MAX_RETRIES none).attempts ≤ MAX_RETRIES
  simpa using queryLoop_attempts_le beh model MAX_RETRIES 0 none

theorem claim_c7_witness :
    (codex_query true (fun _ => .timeoutErr "t") "gpt-5.1-codex-max").attempts = 3 ∧
    (codex_query true (fun _ => .timeoutErr "t") "gpt-5.1-codex-max").response.success
      = false ∧
    (codex_query true (fun _ => .timeoutErr "t") "gpt-5.1-codex-max").delays = [1, 2] ∧
    codex_query true (fun _ => .apiErr "bad request") "gpt-5.1-codex-max" =
      ⟨1, [], ⟨false, "", some "API Error: bad request", "gpt-5.1-codex-max"⟩⟩ := by
  have h := (claim_c7 (fun _ => .timeoutErr "t") "gpt-5.1-codex-max").2.2.2 rfl rfl rfl
  have h2 := (claim_c7 (fun _ => .apiErr "bad request") "gpt-5.1-codex-max").2.1
    "bad request" rfl
  exact ⟨h.1, h.2.1, by rw [h.2.2]; rfl, h2⟩

/-- C8: cleanup_files never propagates an exception: a path that no longer
exists is skipped by the existence check inside the try block (no unlink, no
error), a raised unlink is swallowed leaving the loop state unchanged, the loop
always continues to the remaining paths, and every listed path whose unlink does
not fault is gone afterwards. -/
theorem claim_c8 (fs : FS) (paths : List String) :
    (∀ p, fs.pathExists p = false → cleanupOne fs p = .ok fs)
  ∧ (∀ (g : FS) (p e : String), cleanupOne g p = .error e → handleCleanup g p = g)
  ∧ (∀ q rest, cleanup_files fs (q :: rest) = cleanup_files (handleCleanup fs q) rest)
  ∧ (∀ p ∈ paths, fs.unlinkRaises p = false →
      (cleanup_files fs paths).pathExists p = false) := by
  refine ⟨?_, ?_, fun q rest => rfl,
    fun p hp hr => cleanup_files_removes paths fs hp hr⟩
  · intro p h
    simp [cleanupOne, h]
  · intro g p e he
    simp [handleCleanup, he]

theorem claim_c8_witness :
    (cleanup_files ⟨["a", "b"], fun q => q == "b"⟩ ["a", "b", "c"]).pathExists "a"
      = false ∧
    cleanupOne ⟨["a", "b"], fun q => q == "b"⟩ "c" =
      .ok ⟨["a", "b"], fun q => q == "b"⟩ := by
  have h := claim_c8 ⟨["a", "b"], fun q => q == "b"⟩ ["a", "b", "c"]
  exact ⟨h.2.2.2 "a" (by decide) rfl, h.1 "c" (by decide)⟩

/-- C9: a non-empty contextual prompt is attached to the upstream transcription
request exactly when the resolved model is gpt-4o-transcribe or
gpt-4o-mini-transcribe; for whisper-1 or any other model it is silently omitted
and the call result is the upstream outcome for the prompt-free request. -/
theorem claim_c9 (upstream : TranscribeReq → Except String (String × Option String))
    (sm : String) (language model : Option String) (p : String) (hp : p ≠ "") :
    (pyOrD model sm = "gpt-4o-transcribe" ∨ pyOrD model sm = "gpt-4o-mini-transcribe" →
      (transcribe_request_params sm language (some p) model).prompt = some p)
  ∧ (pyOrD model sm ≠ "gpt-4o-transcribe" → pyOrD model sm ≠ "gpt-4o-mini-transcribe" →
      (transcribe_request_params sm language (some p) model).prompt = none)
  ∧ (∀ r, upstream (transcribe_request_params sm language (some p) model) = .ok r →
      svc_transcribe_audio upstream sm language (some p) model =
        (transcribe_request_params sm language (some p) model, .ok r)) := by
  refine ⟨?_, ?_, ?_⟩
  · intro hor
    have hb : (pyOrD model sm == "gpt-4o-transcribe" ||
        pyOrD model sm == "gpt-4o-mini-transcribe") = true := by
      rcases hor with h | h <;> simp [h]
    simp [transcribe_request_params, pyTruthy_some_iff.mpr hp, hb]
  · intro h1 h2
    have hb : (pyOrD model sm == "gpt-4o-transcribe" ||
        pyOrD model sm == "gpt-4o-mini-transcribe") = false := by
      simp [beq_eq_false_iff_ne.mpr h1, beq_eq_false_iff_ne.mpr h2]
    simp [transcribe_request_params, hb]
  · intro r hr
    simp [svc_transcribe_audio, hr]

theorem claim_c9_witness :
    (transcribe_request_params settings_transcription_model none (some "ctx")
        (some "whisper-1")).prompt = none ∧
    (transcribe_request_params settings_transcription_model none (some "ctx")
        (some "gpt-4o-mini-transcribe")).prompt = some "ctx" := by
  have h1 := claim_c9 (fun _ => .ok ("", none)) settings_transcription_model none
    (some "whisper-1") "ctx" (by decide)
  have h2 := claim_c9 (fun _ => .ok ("", none)) settings_transcription_model none
    (some "gpt-4o-mini-transcribe") "ctx" (by decide)
  exact ⟨h1.2.1 (by decide) (by decide), h2.1 (Or.inr (by decide))⟩

/-- C10 counterexample: an empty-string instruction is falsy, so the code
substitutes the default instead of forwarding it unchanged. -/
theorem claim_c10_counterexample :
    (speech_request_params settings_tts_model_default "Test" "onyx" none
        (some "")).instructions = some DEFAULT_TTS_INSTRUCTIONS ∧
    some DEFAULT_TTS_INSTRUCTIONS ≠ (some "" : Option String) :=
  ⟨rfl, by decide⟩

/-- C10 (amended): for gpt-4o-mini-tts the instructions field is always present:
a falsy caller value (None or the empty string) is replaced by
DEFAULT_TTS_INSTRUCTIONS, and a non-empty instruction is forwarded unchanged. -/
theorem claim_c10 (ttsDefault text voice : String) (model instructions : Option String)
    (hm : pyOrD model ttsDefault = "gpt-4o-mini-tts") :
    (pyTruthy instructions = false →
      (speech_request_params ttsDefault text voice model instructions).instructions =
        some DEFAULT_TTS_INSTRUCTIONS)
  ∧ (∀ s, instructions = some s → s ≠ "" →
      (speech_request_params ttsDefault text voice model instructions).instructions =
        some s) := by
  have hb : (pyOrD model ttsDefault == "gpt-4o-mini-tts") = true := by simp [hm]
  constructor
  · intro hfl
    simp [speech_request_params, hb, pyOrD_of_falsy hfl]
  · intro s hs hsne
    subst hs
    simp [speech_request_params, hb, pyOrD_of_truthy hsne]

theorem claim_c10_witness :
    (speech_request_params settings_tts_model_default "Test" "onyx" none
        none).instructions = some DEFAULT_TTS_INSTRUCTIONS ∧
    (speech_request_params settings_tts_model_default "Test" "onyx" none
        (some "Soft voice")).instructions = some "Soft voice" := by
  have h := claim_c10 settings_tts_model_default "Test" "onyx" none none (by decide)
  have h2 := claim_c10 settings_tts_model_default "Test" "onyx" none (some "Soft voice")
    (by decide)
  exact ⟨h.1 rfl, h2.2 "Soft voice" rfl (by decide)⟩

/-- C1: a supplied language hint selects Flow 2, whose initial transcription
request uses gpt-4o-mini-transcribe and carries the hint; no hint selects
Flow 1, whose initial request uses whisper-1 with no language parameter; every
successful response has a non-empty language, and when the auto-detect call
omits (or empties) the detected language the response language is the fixed
fallback English ("en"). -/
theorem claim_c1 (oracle : Oracle) (sm : String) (ff : Option String) (saveOk : Bool)
    (file : UploadFile) (language : Option String) :
    (∀ r, (transcribe_route oracle sm ff saveOk file
          language).transcribeCalls.head? = some r →
        (pyTruthy language = true →
          r.model = "gpt-4o-mini-transcribe" ∧ r.language = language) ∧
        (pyTruthy language = false → r.model = "whisper-1" ∧ r.language = none))
  ∧ (∀ resp, (transcribe_route oracle sm ff saveOk file language).result = .ok resp →
      resp.language ≠ "")
  ∧ (pyTruthy language = false →
      ∀ t dl resp, oracle.transcribe (flowAInitialReq sm) = .ok (t, dl) →
        pyTruthy dl = false →
        (transcribe_route oracle sm ff saveOk file language).result = .ok resp →
        resp.language = "English") := by
  refine ⟨?_, ?_, ?_⟩
  · intro r hr
    rcases route_calls_head_char oracle sm ff saveOk file language r hr with
      ⟨hl, he⟩ | ⟨hl, he⟩
    · subst he
      constructor
      · intro _
        constructor
        · simp [flow2InitReq, transcribe_request_params, pyOrD]
        · have hne : pyTruthy (some (language.getD "")) = true :=
            pyTruthy_some_iff.mpr (truthy_getD_ne hl)
          simp only [flow2InitReq, transcribe_request_params, hne, if_true]
          exact (truthy_some_getD hl).symm
      · intro hfl
        rw [hl] at hfl
        cases hfl
    · subst he
      constructor
      · intro htr
        rw [hl] at htr
        cases htr
      · intro _
        constructor
        · simp [flowAInitialReq, transcribe_request_params, pyOrD]
        · simp [flowAInitialReq, transcribe_request_params, pyTruthy]
  · intro resp hresp
    obtain ⟨l0, ft, hre, _, hl0, _⟩ :=
      route_result_ok_char oracle sm ff saveOk file language resp hresp
    rw [hre]
    exact dictGet_ne_empty lang_table_vals_ne_empty hl0
  · intro hl t dl resp h1 hdl hresp
    obtain ⟨l0, ft, hre, _, _, hcase⟩ :=
      route_result_ok_char oracle sm ff saveOk file language resp hresp
    rcases hcase with ⟨htr, _⟩ | ⟨_, t2, dl2, h1b, hl0⟩
    · rw [hl] at htr
      cases htr
    · have hpair : (Except.ok (t, dl) : Except String (String × Option String)) =
          .ok (t2, dl2) := h1.symm.trans h1b
      have hdl2 : dl = dl2 := by
        injection hpair with hp
        injection hp with _ hdl2
      subst hdl2
      rw [pyOrD_of_falsy hdl] at hl0
      subst hl0
      rw [hre]
      rfl

theorem claim_c1_witness :
    (transcribe_route exOracleNoLang settings_transcription_model none true exFile
        none).result = .ok ⟨"final text", "English"⟩ ∧
    TranscribeResponse.language ⟨"final text", "English"⟩ = "English" ∧
    TranscribeResponse.language ⟨"final text", "English"⟩ ≠ "" := by
  have h := claim_c1 exOracleNoLang settings_transcription_model none true exFile none
  have h2 := h.2.1 ⟨"final text", "English"⟩ rfl
  have h3 := h.2.2 rfl "hi there" none ⟨"final text", "English"⟩ rfl rfl rfl
  exact ⟨rfl, h3, h2⟩

/-- C2 counterexample: the refinement step fails (its chat oracle always raises,
and its str.format call raises before it anyway), yet the route succeeds with
the refined transcription output "goodbye", not the initial transcript "hello":
the downstream transcript does not equal the original unrefined transcript. -/
theorem claim_c2_counterexample :
    svc_generate_optimized_prompt exOracle.chat "en" "hello" =
      (none, "Audio content in English.") ∧
    exOracle.chat ⟨"gpt-5-mini", "irrelevant", "irrelevant"⟩ = .error "boom" ∧
    (transcribe_route exOracle settings_transcription_model none true exFile
        none).result = .ok ⟨"goodbye", "English"⟩ ∧
    ("goodbye" : String) ≠ "hello" :=
  ⟨rfl, rfl, rfl, by decide⟩

/-- C2 (amended): a failing or empty refinement call is absorbed: the prompt
optimizer never returns an error and always yields the deterministic default
prompt "Audio content in {language name}."; the pipeline then continues, making
the refined transcription call with that default prompt attached, and when the
primary calls succeed the operation succeeds with the refined call output (not
the initial transcript) as its text. -/
theorem claim_c2 (chat : ChatReq → Except String (Option String)) (l t0 : String)
    (oracle : Oracle) (sm : String) :
    svc_generate_optimized_prompt chat l t0 = (none, fallbackOptimizedPrompt l)
  ∧ (flow2FinalReq sm l).prompt = some (fallbackOptimizedPrompt l)
  ∧ (∀ t1 dl1 ft dl2,
      oracle.transcribe (flow2InitReq sm l) = .ok (t1, dl1) →
      oracle.transcribe (flow2FinalReq sm l) = .ok (ft, dl2) → ft ≠ "" →
      flow2 oracle sm l = ⟨[flow2InitReq sm l, flow2FinalReq sm l], [],
        .ok ⟨ft, dictGet LANGUAGE_CODE_TO_NAME (pyLower l) l⟩⟩)
  ∧ (∀ t1 dl1 ft dl2,
      oracle.transcribe (flowAInitialReq sm) = .ok (t1, dl1) →
      oracle.transcribe (flow1FinalReq sm (pyOrD dl1 "en")) = .ok (ft, dl2) → ft ≠ "" →
      flow1 oracle sm = ⟨[flowAInitialReq sm, flow1FinalReq sm (pyOrD dl1 "en")], [],
        .ok ⟨ft, dictGet LANGUAGE_CODE_TO_NAME (pyLower (pyOrD dl1 "en"))
          (pyOrD dl1 "en")⟩⟩) := by
  refine ⟨gen_opt_always_fallback chat l t0, ?_, ?_, ?_⟩
  · simp [flow2FinalReq, transcribe_request_params, fallback_prompt_truthy l, pyOrD]
  · intro t1 dl1 ft dl2 h1 h3 hft
    rw [flow2_ok oracle sm l t1 dl1 ft dl2 h1 h3]
    unfold mkTranscribeResponse
    simp [hft]
  · intro t1 dl1 ft dl2 h1 h3 hft
    rw [flow1_ok oracle sm t1 dl1 ft dl2 h1 h3]
    unfold mkTranscribeResponse
    simp [hft]

theorem claim_c2_witness :
    flow1 exOracle settings_transcription_model =
      ⟨[flowAInitialReq settings_transcription_model,
        flow1FinalReq settings_transcription_model "en"], [],
       .ok ⟨"goodbye", "English"⟩⟩ := by
  have h := (claim_c2 exOracle.chat "en" "x" exOracle settings_transcription_model).2.2.2
    "hello" (some "en") "goodbye" (some "en") rfl rfl (by decide)
  exact h

/-- C5 counterexample: no code path checks the upload size: an upload one byte
above the configured maximum passes validation, the pipeline proceeds, both
upstream transcription calls are made, and the request succeeds. -/
theorem claim_c5_counterexample :
    validate_audio_file exFileBig = .ok () ∧
    settings_max_upload_size < exFileBig.size ∧
    (transcribe_route exOracle settings_transcription_model none true exFileBig
        (some "en")).transcribeCalls.length = 2 ∧
    (transcribe_route exOracle settings_transcription_model none true exFileBig
        (some "en")).result = .ok ⟨"goodbye", "English"⟩ :=
  ⟨rfl, by decide, rfl, rfl⟩

/-- C5 (amended): a missing/empty filename or a disallowed extension fails with
a validation-kind error, and a failing transcode fails with a
local-processing-kind error, in both cases with no upstream call issued; upload
size, however, is never validated (the configured limit is not consulted), so an
oversized upload raises no validation error. -/
theorem claim_c5 (oracle : Oracle) (sm : String) (ff : Option String) (saveOk : Bool)
    (file : UploadFile) (language : Option String) :
    (∀ e, validate_audio_file file = .error e →
        transcribe_route oracle sm ff saveOk file language = ⟨[], [], .error e⟩ ∧
        e.kind = .validation)
  ∧ (pyTruthy file.filename = false →
      validate_audio_file file = .error ⟨.validation, "No filename provided"⟩)
  ∧ (pyTruthy file.filename = true →
      valid_extensions.contains (pyLower (pathSuffix (file.filename.getD ""))) = false →
      ∃ m, validate_audio_file file = .error ⟨.validation, m⟩)
  ∧ (∀ m, validate_audio_file file = .ok () → saveOk = true → ff = some m →
      transcribe_route oracle sm ff saveOk file language =
        ⟨[], [], .error ⟨.audioProcessing, "Audio conversion failed: " ++ m⟩⟩) := by
  refine ⟨?_, validate_no_filename, validate_bad_extension, ?_⟩
  · intro e he
    exact ⟨route_validate_err oracle sm ff saveOk file language e he,
      validate_err_kind he⟩
  · intro m hv hs hf
    subst hs
    subst hf
    exact route_convert_err oracle sm m file language hv

theorem claim_c5_witness :
    transcribe_route exOracle settings_transcription_model none true exFileNoName none =
      ⟨[], [], .error ⟨.validation, "No filename provided"⟩⟩ ∧
    transcribe_route exOracle settings_transcription_model (some "bad codec") true exFile
        none =
      ⟨[], [], .error ⟨.audioProcessing, "Audio conversion failed: bad codec"⟩⟩ := by
  have h := claim_c5 exOracle settings_transcription_model none true exFileNoName none
  have h2 := claim_c5 exOracle settings_transcription_model (some "bad codec") true
    exFile none
  exact ⟨(h.1 _ (h.2.1 rfl)).1, h2.2.2.2 "bad codec" rfl rfl rfl⟩

/-- C6 counterexample: a language code absent from the table is returned
unchanged in the response language field, not capitalized: the hint "xx" comes
back as "xx" although its capitalization is "Xx". -/
theorem claim_c6_counterexample :
    (transcribe_route exOracle settings_transcription_model none true exFile
        (some "xx")).result = .ok ⟨"goodbye", "xx"⟩ ∧
    List.lookup "xx" LANGUAGE_CODE_TO_NAME = none ∧
    pyTitle "xx" = "Xx" ∧ ("xx" : String) ≠ "Xx" :=
  ⟨rfl, by decide, rfl, by decide⟩

/-- C6 (amended): the response language is always the flow language code mapped
through LANGUAGE_CODE_TO_NAME with the raw code itself as the default, so codes
absent from the table pass through unchanged (only the prompt-generation step
title-cases unknown codes). -/
theorem claim_c6 (oracle : Oracle) (sm : String) (ff : Option String) (saveOk : Bool)
    (file : UploadFile) (language : Option String) (resp : TranscribeResponse)
    (h : (transcribe_route oracle sm ff saveOk file language).result = .ok resp) :
    (∀ l, language = some l → pyTruthy language = true →
        resp.language = dictGet LANGUAGE_CODE_TO_NAME (pyLower l) l)
  ∧ (pyTruthy language = false →
      ∀ t dl, oracle.transcribe (flowAInitialReq sm) = .ok (t, dl) →
        resp.language = dictGet LANGUAGE_CODE_TO_NAME (pyLower (pyOrD dl "en"))
          (pyOrD dl "en")) := by
  obtain ⟨l0, ft, hre, _, _, hcase⟩ :=
    route_result_ok_char oracle sm ff saveOk file language resp h
  constructor
  · intro l hlang htr
    rcases hcase with ⟨_, hsome⟩ | ⟨hfalse, _⟩
    · rw [hlang] at hsome
      injection hsome with hsame
      subst hsame
      rw [hre]
    · rw [htr] at hfalse
      cases hfalse
  · intro hfalse t dl h1
    rcases hcase with ⟨htr, _⟩ | ⟨_, t2, dl2, h1b, hl0⟩
    · rw [hfalse] at htr
      cases htr
    · have hpair : (Except.ok (t, dl) : Except String (String × Option String)) =
          .ok (t2, dl2) := h1.symm.trans h1b
      have hdl2 : dl = dl2 := by
        injection hpair with hp
        injection hp with _ hdl2
      subst hdl2
      subst hl0
      rw [hre]

theorem claim_c6_witness :
    (transcribe_route exOracle settings_transcription_model none true exFile
        (some "en")).result = .ok ⟨"goodbye", "English"⟩ ∧
    TranscribeResponse.language ⟨"goodbye", "English"⟩ =
      dictGet LANGUAGE_CODE_TO_NAME (pyLower "en") "en" := by
  have h := (claim_c6 exOracle settings_transcription_model none true exFile (some "en")
    ⟨"goodbye", "English"⟩ rfl).1 "en" rfl rfl
  exact ⟨rfl, h⟩

end DubbingStudio

